import Mathlib

/-!
Verification development for the conversational scheduling assistant
(`src/calendar_service.py`, `src/agent.py`).

Shallow embedding conventions:
* Naive `datetime` values are modelled as `Nat` minutes since the proleptic
  Gregorian epoch (day ordinal 1 = 0001-01-01, matching CPython's
  `date.toordinal`), at minute resolution — every time the program builds or
  compares is on whole minutes.
* `datetime.now()` is passed in explicitly as a `now : Nat` parameter.
* The OpenAI intent extractor and the remote Google backend are external
  black boxes; their behaviours enter as oracle parameters.
* Python dicts returned to the caller are modelled by structures with
  `Option` fields (a `none` field is an absent key); Python truthiness of
  strings is `truthyStr`.
-/

/-! ## Calendar arithmetic (models CPython `datetime` at minute resolution) -/

/-- Gregorian leap-year test, as in CPython `calendar.isleap`. -/
def isLeapYear (y : Nat) : Bool :=
  (y % 4 == 0 && y % 100 != 0) || y % 400 == 0

/-- Days in a month of the proleptic Gregorian calendar. -/
def daysInMonth (y m : Nat) : Nat :=
  if m == 2 then (if isLeapYear y then 29 else 28)
  else if m == 4 || m == 6 || m == 9 || m == 11 then 30
  else 31

/-- Days in all years before year `y` (year 1 is the first year). -/
def daysBeforeYear (y : Nat) : Nat :=
  365 * (y - 1) + (y - 1) / 4 - (y - 1) / 100 + (y - 1) / 400

/-- Days in the months of year `y` strictly before month `m`. -/
def daysBeforeMonth (y m : Nat) : Nat :=
  (List.range' 1 (m - 1)).foldl (fun acc k => acc + daysInMonth y k) 0

/-- CPython `date(y, m, d).toordinal()`. -/
def toOrdinal (y m d : Nat) : Nat :=
  daysBeforeYear y + daysBeforeMonth y m + d

/-- Minutes since the epoch of the naive `datetime(y, mo, d, h, mi)`. -/
def civilToMinutes (y mo d h mi : Nat) : Nat :=
  (toOrdinal y mo d - 1) * 1440 + h * 60 + mi

/-- `datetime.hour` of a minutes-since-epoch value. -/
def hourOf (t : Nat) : Nat := t / 60 % 24

/-- `dt.replace(hour := h, minute := m, second := 0, microsecond := 0)` at
minute resolution: keep the day of `t`, set the time of day to `h:m`. -/
def replaceHM (t h m : Nat) : Nat := t / 1440 * 1440 + h * 60 + m

/-- `"%02d"` zero padding used by `strftime`. -/
def pad2 (n : Nat) : String := if n < 10 then "0" ++ toString n else toString n

/-- `dt.strftime("%H:%M")`. -/
def fmtHM (t : Nat) : String := pad2 (hourOf t) ++ ":" ++ pad2 (t % 60)

/-! ## `datetime.strptime` on the formats the agent uses

The agent only ever parses `"%Y-%m-%d"` and `"%Y-%m-%d %H:%M"`.  The model
accepts exactly the zero-padded canonical strings (CPython is slightly more
lenient about missing leading zeros; no claim depends on that fringe) and
fails with a `ValueError`-style message otherwise. -/

/-- Numeric value of a digit character. -/
def digitVal (c : Char) : Nat := c.toNat - 48

/-- `strptime(s, "%Y-%m-%d")`, returning `(year, month, day)`. -/
def parseDate (s : String) : Except String (Nat × Nat × Nat) :=
  let err : Except String (Nat × Nat × Nat) :=
    .error ("time data \x27" ++ s ++ "\x27 does not match format \x27%Y-%m-%d\x27")
  match s.data with
  | [y1, y2, y3, y4, s1, m1, m2, s2, d1, d2] =>
    if y1.isDigit && y2.isDigit && y3.isDigit && y4.isDigit && s1 == '-' &&
        m1.isDigit && m2.isDigit && s2 == '-' && d1.isDigit && d2.isDigit then
      let y := digitVal y1 * 1000 + digitVal y2 * 100 + digitVal y3 * 10 + digitVal y4
      let mo := digitVal m1 * 10 + digitVal m2
      let d := digitVal d1 * 10 + digitVal d2
      if 1 ≤ y && 1 ≤ mo && mo ≤ 12 && 1 ≤ d && d ≤ daysInMonth y mo then
        .ok (y, mo, d)
      else err
    else err
  | _ => err

/-- `strptime(s, "%H:%M")`, returning `(hour, minute)`. -/
def parseTime (s : String) : Except String (Nat × Nat) :=
  let err : Except String (Nat × Nat) :=
    .error ("time data \x27" ++ s ++ "\x27 does not match format \x27%H:%M\x27")
  match s.data with
  | [h1, h2, c, m1, m2] =>
    if h1.isDigit && h2.isDigit && c == ':' && m1.isDigit && m2.isDigit then
      let h := digitVal h1 * 10 + digitVal h2
      let mi := digitVal m1 * 10 + digitVal m2
      if h ≤ 23 && mi ≤ 59 then .ok (h, mi) else err
    else err
  | _ => err

/-- `strptime(date_str, "%Y-%m-%d")` as a start-of-day timestamp. -/
def parseDateMidnight (date_str : String) : Except String Nat :=
  match parseDate date_str with
  | .ok (y, mo, d) => .ok (civilToMinutes y mo d 0 0)
  | .error e => .error e

/-- `strptime(date_str ++ " " ++ time_str, "%Y-%m-%d %H:%M")` as a timestamp. -/
def parseDateTime (date_str time_str : String) : Except String Nat :=
  let err : Except String Nat :=
    .error ("time data \x27" ++ date_str ++ " " ++ time_str ++
      "\x27 does not match format \x27%Y-%m-%d %H:%M\x27")
  match parseDate date_str, parseTime time_str with
  | .ok (y, mo, d), .ok (h, mi) => .ok (civilToMinutes y mo d h mi)
  | _, _ => err

/-! ## `MockCalendarService` (`src/calendar_service.py` lines 167-245) -/

/-- One entry of `MockCalendarService.events`. -/
structure MockEvent where
  id : String
  title : String
  start_time : Nat
  duration : Nat
  description : String
deriving DecidableEq, Repr

/-- The mutable state of a `MockCalendarService` instance. -/
structure MockState where
  events : List MockEvent
  next_event_id : Nat
deriving DecidableEq, Repr

/-- `MockCalendarService.check_availability` (lines 174-191): busy whenever the
start hour is 14, otherwise busy iff some stored event's interval overlaps
`[start, start+duration)` under the half-open test. -/
def MockCalendarService.check_availability
    (st : MockState) (start_time : Nat) (duration_minutes : Nat) : Bool :=
  let end_time := start_time + duration_minutes
  if hourOf start_time == 14 then false
  else
    st.events.all fun e =>
      !(decide (start_time < e.start_time + e.duration) && decide (end_time > e.start_time))

/-- `MockCalendarService.create_event` (lines 193-207): unconditionally appends
an event and returns the fresh id `"mock_event_" ++ next_event_id`. -/
def MockCalendarService.create_event
    (st : MockState) (title : String) (start_time duration_minutes : Nat)
    (descr : String) : String × MockState :=
  let event_id := "mock_event_" ++ toString st.next_event_id
  (event_id,
    { events := st.events ++ [⟨event_id, title, start_time, duration_minutes, descr⟩],
      next_event_id := st.next_event_id + 1 })

/-! ## The 30-minute candidate grid and the shared scanning loop -/

/-- Keep predicate of one loop iteration: not in the past, and available. -/
def keepSlot (avail : Nat → Bool) (now c : Nat) : Bool :=
  !decide (c < now) && avail c

/-- The nested `for hour / for minute in [0, 30]` loop body common to both
`suggest_times` implementations, with the `continue` on past candidates, the
conditional append, and the early exit once `cap` suggestions are collected. -/
def suggestScan (avail : Nat → Bool) (now cap : Nat) :
    List Nat → List Nat → List Nat
  | [], acc => acc
  | c :: rest, acc =>
    if c < now then suggestScan avail now cap rest acc
    else
      let acc2 := if avail c then acc ++ [c] else acc
      if cap ≤ acc2.length then acc2 else suggestScan avail now cap rest acc2

/-- The two candidates of one hour row: `hh:00` and `hh:30` on the target day. -/
def slotRow (target h : Nat) : List Nat := [replaceHM target h 0, replaceHM target h 30]

/-- Concatenation of the hour rows, in loop order. -/
def gridOverHours (target : Nat) : List Nat → List Nat
  | [] => []
  | h :: hs => slotRow target h ++ gridOverHours target hs

/-- All candidate start-times scanned for `target`'s date: hours
`range(9, 17)` under business hours, else `range(8, 20)`, each with minutes
0 and 30. -/
def gridCandidates (business_hours_only : Bool) (target : Nat) : List Nat :=
  match business_hours_only with
  | true => gridOverHours target (List.range' 9 (17 - 9))
  | false => gridOverHours target (List.range' 8 (20 - 8))

/-- `MockCalendarService.suggest_times` (lines 209-232): scan the grid, skip
past candidates, keep available ones, and return as soon as 5 are found. -/
def MockCalendarService.suggest_times
    (st : MockState) (now target_date duration_minutes : Nat)
    (business_hours_only : Bool) : List Nat :=
  suggestScan (fun c => MockCalendarService.check_availability st c duration_minutes)
    now 5 (gridCandidates business_hours_only target_date) []

/-! ## `GoogleCalendarService` (`src/calendar_service.py` lines 9-164)

`self.service` is either the live Google API client (network behaviour is an
oracle `Nat → Nat → Bool` answering `check_availability`) or a fallback
`MockCalendarService`; the methods dispatch on `isinstance`. -/

/-- The runtime state of `GoogleCalendarService.service`. -/
inductive ServiceKind where
  | live : (Nat → Nat → Bool) → ServiceKind
  | mock : MockState → ServiceKind

/-- `GoogleCalendarService.check_availability` (lines 39-67): delegate to the
mock when the service fell back, otherwise the events-list query (an oracle;
its error paths also just yield a Bool). -/
def GoogleCalendarService.check_availability (svc : ServiceKind) (s d : Nat) : Bool :=
  match svc with
  | .live avail => avail s d
  | .mock st => MockCalendarService.check_availability st s d

/-- The live branch of `GoogleCalendarService.suggest_times` (lines 111-138):
the same grid scan with a cap of 10. -/
def GoogleCalendarService.suggestTimesLive
    (avail : Nat → Nat → Bool) (now target_date duration_minutes : Nat)
    (business_hours_only : Bool) : List Nat :=
  suggestScan (fun c => GoogleCalendarService.check_availability (.live avail) c duration_minutes)
    now 10 (gridCandidates business_hours_only target_date) []

/-- `GoogleCalendarService.suggest_times` (lines 105-138), including the
`isinstance` delegation to the mock. -/
def GoogleCalendarService.suggest_times
    (svc : ServiceKind) (now target_date duration_minutes : Nat)
    (business_hours_only : Bool) : List Nat :=
  match svc with
  | .mock st =>
    MockCalendarService.suggest_times st now target_date duration_minutes business_hours_only
  | .live avail =>
    GoogleCalendarService.suggestTimesLive avail now target_date duration_minutes
      business_hours_only

/-- Spec-side statement of "on the 30-minute grid within the scanned hour
range on the target day": between the range start and end on `target`'s date,
at a whole or half hour offset. -/
def onGrid (business_hours_only : Bool) (target t : Nat) : Prop :=
  target / 1440 * 1440 + (if business_hours_only then 9 else 8) * 60 ≤ t ∧
  t < target / 1440 * 1440 + (if business_hours_only then 17 else 20) * 60 ∧
  (t - target / 1440 * 1440) % 30 = 0

/-! ## The dialogue agent (`src/agent.py`)

The conversational context is a string-keyed dict; the values the agent ever
stores (or receives opaquely from the extractor) are modelled by `CtxVal`. -/

/-- The `parameters` object of the extractor's JSON (all keys optional;
`duration` defaults to 60 at each use site via `.get`). -/
structure Params where
  date : Option String
  time : Option String
  duration : Option Nat
  title : Option String
  description : Option String
deriving DecidableEq, Repr

instance : Inhabited Params := ⟨⟨none, none, none, none, none⟩⟩

/-- A value stored in the conversation context dict. -/
inductive CtxVal where
  /-- An opaque value supplied by the extractor. -/
  | raw : String → CtxVal
  /-- The `pending_booking` payload: the partial parameters. -/
  | paramsV : Params → CtxVal
  /-- The `last_availability_check` record `{date, time, available}`. -/
  | availCheck : String → Option String → Bool → CtxVal
  /-- The `last_booking` record `{event_id, title, datetime}`. -/
  | bookingV : Option String → String → String → CtxVal
  /-- The `suggested_times` list of `"HH:MM"` strings. -/
  | timesV : List String → CtxVal
deriving DecidableEq, Repr

/-- A conversation context: a string-keyed dict. -/
def Ctx : Type := List (String × CtxVal)

instance : DecidableEq Ctx := inferInstanceAs (DecidableEq (List (String × CtxVal)))

instance : Repr Ctx := inferInstanceAs (Repr (List (String × CtxVal)))

/-- `{**ctx, key: v}` — the merged dict with `key` bound to `v`. -/
def ctxSet (c : Ctx) (key : String) (v : CtxVal) : Ctx :=
  (key, v) :: (List.filter (fun p => !(p.1 == key)) c)

/-- Dict lookup. -/
def ctxGet (c : Ctx) (key : String) : Option CtxVal :=
  (List.find? (fun p => p.1 == key) c).map (fun p => p.2)

/-- Python truthiness of an optional string: `None` and `""` are falsy. -/
def truthyStr (o : Option String) : Bool :=
  match o with
  | none => false
  | some s => !(s == "")

/-- The extractor's parsed JSON object (and, equally, the dict shape
`process_message` returns): every key optional. -/
structure AIResponse where
  message : Option String
  action : Option String
  parameters : Option Params
  context : Option Ctx
deriving DecidableEq, Repr

/-- What a handler returns: a dict with exactly `message` and `context`. -/
structure AgentResult where
  message : String
  context : Ctx
deriving DecidableEq, Repr

/-- The calendar capability the agent calls through
`self.calendar_service` (both implementations catch their own transport
errors internally, so the operations return plain values). -/
structure BackendIface (σ : Type) where
  check_availability : σ → Nat → Nat → Bool
  create_event : σ → String → Nat → Nat → String → Option String × σ
  suggest_times : σ → Nat → Nat → List Nat

/-- The backend the agent actually holds when credentials are absent:
`GoogleCalendarService` delegating every call to its `MockCalendarService`
(`business_hours_only` keeps its default `True` on the suggest path). -/
def mockIface (now : Nat) : BackendIface MockState where
  check_availability := fun st s d => MockCalendarService.check_availability st s d
  create_event := fun st title s d descr =>
    let r := MockCalendarService.create_event st title s d descr
    (some r.1, r.2)
  suggest_times := fun st target d => MockCalendarService.suggest_times st now target d true

/-- The missing required booking fields, in the source's order
`['date', 'time', 'title']`, a field being missing when falsy. -/
def missingFields (p : Params) : List String :=
  List.filter (fun f =>
      !(truthyStr (if f == "date" then p.date else if f == "time" then p.time else p.title)))
    ["date", "time", "title"]

/-- `AppointmentAgent._check_availability` (`src/agent.py` lines 121-171). -/
def checkAvailabilityAction {σ : Type} (B : BackendIface σ)
    (parameters : Params) (aiCtx : Ctx) (st : σ) : AgentResult × σ :=
  let date_str := parameters.date
  let time_str := parameters.time
  let duration := parameters.duration.getD 60
  if !(truthyStr date_str) then
    ({ message := "I need a specific date to check availability. What date are you thinking about?",
       context := aiCtx }, st)
  else
    let ds := date_str.getD ""
    let parsed :=
      if truthyStr time_str then parseDateTime ds (time_str.getD "")
      else parseDateMidnight ds
    match parsed with
    | .error e =>
      ({ message := "I had trouble checking your calendar: " ++ e, context := aiCtx }, st)
    | .ok start_time =>
      let is_available := B.check_availability st start_time duration
      let tpart := if truthyStr time_str then " at " ++ time_str.getD "" else ""
      let message :=
        if is_available then
          "Great! You\x27re available on " ++ ds ++ tpart ++
            ". Would you like me to book an appointment?"
        else
          "You have a conflict on " ++ ds ++ tpart ++
            ". Would you like me to suggest some alternative times?"
      ({ message := message,
         context := ctxSet aiCtx "last_availability_check"
           (.availCheck ds time_str is_available) }, st)

/-- `AppointmentAgent._book_appointment` (`src/agent.py` lines 173-232). -/
def bookAppointmentAction {σ : Type} (B : BackendIface σ)
    (parameters : Params) (aiCtx : Ctx) (st : σ) : AgentResult × σ :=
  if missingFields parameters = [] then
    let ds := parameters.date.getD ""
    let ts := parameters.time.getD ""
    let datetime_str := ds ++ " " ++ ts
    match parseDateTime ds ts with
    | .error e =>
      ({ message := "I encountered an error while booking: " ++ e, context := aiCtx }, st)
    | .ok start_time =>
      let duration := parameters.duration.getD 60
      if B.check_availability st start_time duration then
        let created := B.create_event st (parameters.title.getD "") start_time duration
          (parameters.description.getD "")
        let event_id := created.1
        let message :=
          if truthyStr event_id then
            "Perfect! I\x27ve booked \x27" ++ parameters.title.getD "" ++ "\x27 for " ++
              ds ++ " at " ++ ts ++ "." ++
              (if duration != 60 then " Duration: " ++ toString duration ++ " minutes." else "") ++
              " Event ID: " ++ event_id.getD ""
          else "I had trouble booking the appointment. Please try again."
        ({ message := message,
           context := ctxSet aiCtx "last_booking"
             (.bookingV event_id (parameters.title.getD "") datetime_str) }, created.2)
      else
        ({ message := "There\x27s a conflict at " ++ ts ++ " on " ++ ds ++
             ". Would you like me to suggest alternative times?", context := aiCtx }, st)
  else
    ({ message := "I need more information to book the appointment. Please provide: " ++
         String.intercalate ", " (missingFields parameters),
       context := ctxSet aiCtx "pending_booking" (.paramsV parameters) }, st)

/-- `AppointmentAgent._suggest_times` (`src/agent.py` lines 234-270). -/
def suggestTimesAction {σ : Type} (B : BackendIface σ)
    (parameters : Params) (aiCtx : Ctx) (st : σ) : AgentResult × σ :=
  let date_str := parameters.date
  let duration := parameters.duration.getD 60
  if !(truthyStr date_str) then
    ({ message := "What date would you like me to check for available times?",
       context := aiCtx }, st)
  else
    let ds := date_str.getD ""
    match parseDateMidnight ds with
    | .error e =>
      ({ message := "I had trouble finding available times: " ++ e, context := aiCtx }, st)
    | .ok target_date =>
      let suggestions := B.suggest_times st target_date duration
      let top := suggestions.take 5
      let message :=
        if suggestions.isEmpty then
          "I couldn\x27t find any available slots on " ++ ds ++
            ". Would you like to try a different date?"
        else
          "Here are some available times on " ++ ds ++ ":\n" ++
            String.join (top.enum.map (fun p =>
              toString (p.1 + 1) ++ ". " ++ fmtHM p.2 ++ "\n")) ++
            "\nWhich time works best for you?"
      ({ message := message,
         context := ctxSet aiCtx "suggested_times" (.timesV (top.map fmtHM)) }, st)

/-- The outcome of `_execute_action`: a handler's `{message, context}` dict,
or the unmodified `ai_response` when the action is unrecognized. -/
inductive ExecOut where
  | handled : AgentResult → ExecOut
  | passthrough : ExecOut
deriving Repr

/-- `AppointmentAgent._execute_action` (`src/agent.py` lines 100-119).  The
handlers are total here (each converts its own parse failures to messages),
so the surrounding `except` is unreachable in the model. -/
def executeAction {σ : Type} (B : BackendIface σ) (air : AIResponse) (st : σ) :
    ExecOut × σ :=
  let parameters := air.parameters.getD default
  let aiCtx := air.context.getD []
  if air.action == some "check_availability" then
    let r := checkAvailabilityAction B parameters aiCtx st
    (.handled r.1, r.2)
  else if air.action == some "book_appointment" then
    let r := bookAppointmentAction B parameters aiCtx st
    (.handled r.1, r.2)
  else if air.action == some "suggest_times" then
    let r := suggestTimesAction B parameters aiCtx st
    (.handled r.1, r.2)
  else (.passthrough, st)

/-- One behaviour of `_get_ai_response`'s external part: the OpenAI call
raised, or returned text that `json.loads` rejects, or a parsed JSON object. -/
inductive ExtractorOutcome where
  | raised : String → ExtractorOutcome
  | decodeError : String → ExtractorOutcome
  | parsed : AIResponse → ExtractorOutcome

/-- `AppointmentAgent._get_ai_response` (`src/agent.py` lines 71-98): only a
`JSONDecodeError` triggers the general-chat fallback; an exception from the
API call propagates. -/
def getAiResponse (ext : ExtractorOutcome) (context : Ctx) : Except String AIResponse :=
  match ext with
  | .raised e => .error e
  | .decodeError raw =>
    .ok { message := some raw, action := some "general_chat",
          parameters := none, context := some context }
  | .parsed r => .ok r

/-- The body of `process_message`'s `try` block (`src/agent.py` lines 51-62).
A raised exception is an `.error` carrying the exception text and the backend
state at the raise point.  Line 59 evaluates `ai_response['message']` (the
`.get` default) eagerly, so a missing extractor `message` raises `KeyError`
there even when the handler produced a result. -/
def processCore {σ : Type} (B : BackendIface σ) (ext : ExtractorOutcome)
    (context : Ctx) (st : σ) : Except (String × σ) (AIResponse × σ) :=
  match getAiResponse ext context with
  | .error e => .error (e, st)
  | .ok air =>
    if truthyStr air.action && !(air.action == some "general_chat") then
      let out := executeAction B air st
      match air.message with
      | none => .error ("\x27message\x27", out.2)
      | some dm =>
        let msg := match out.1 with
          | .handled r => r.message
          | .passthrough => dm
        let ctx2 := match out.1 with
          | .handled r => r.context
          | .passthrough => air.context.getD []
        .ok ({ air with message := some msg, context := some ctx2 }, out.2)
    else .ok (air, st)

/-- `AppointmentAgent.process_message` (`src/agent.py` lines 46-69): the
`try`'s value, or the apologetic error dict built from the caught exception. -/
def process_message {σ : Type} (B : BackendIface σ) (ext : ExtractorOutcome)
    (context : Ctx) (st : σ) : AIResponse × σ :=
  match processCore B ext context st with
  | .ok r => r
  | .error es =>
    ({ message := some ("I encountered an error: " ++ es.1 ++ ". Please try again."),
       action := some "error", parameters := none, context := some context }, es.2)

/-- Spec-side helper: the date/time parse a given action performs on its
parameters (used to state the parse-failure claims). -/
def handlerParse (a : String) (p : Params) : Except String Nat :=
  if a == "check_availability" then
    (if truthyStr p.time then parseDateTime (p.date.getD "") (p.time.getD "")
     else parseDateMidnight (p.date.getD ""))
  else if a == "book_appointment" then parseDateTime (p.date.getD "") (p.time.getD "")
  else parseDateMidnight (p.date.getD "")

/-- Spec-side helper: the required parameters of an action are all present. -/
def requiredPresent (a : String) (p : Params) : Prop :=
  if a = "book_appointment" then missingFields p = [] else truthyStr p.date = true

/-- Spec-side helper: the apology message each handler produces when its
date/time parse raises. -/
def apologyFor (a e : String) : String :=
  if a == "check_availability" then "I had trouble checking your calendar: " ++ e
  else if a == "book_appointment" then "I encountered an error while booking: " ++ e
  else "I had trouble finding available times: " ++ e

/-! ## Helper lemmas -/

/-- The scanning loop collects, onto `acc`, the prefix of the keepable
candidates that fills the cap. -/
theorem suggestScan_eq (avail : Nat → Bool) (now cap : Nat) :
    ∀ (cands acc : List Nat), acc.length < cap →
      suggestScan avail now cap cands acc =
        acc ++ (cands.filter (keepSlot avail now)).take (cap - acc.length) := by
  intro cands
  induction cands with
  | nil => intro acc hacc; simp [suggestScan]
  | cons c rest ih =>
    intro acc hacc
    by_cases hc : c < now
    · have hks : keepSlot avail now c = false := by simp [keepSlot, hc]
      simp [suggestScan, hc, List.filter_cons, hks, ih acc hacc]
    · have hd : decide (c < now) = false := by simp [hc]
      cases hA : avail c with
      | true =>
        have hks : keepSlot avail now c = true := by simp [keepSlot, hd, hA]
        by_cases hcap : cap ≤ acc.length + 1
        · have h1 : cap - acc.length = 1 := by omega
          simp [suggestScan, hc, hA, hcap, List.filter_cons, hks, h1]
        · have h2 : (acc ++ [c]).length < cap := by simp; omega
          have h3 : cap - acc.length = (cap - (acc.length + 1)) + 1 := by omega
          simp [suggestScan, hc, hA, hcap, List.filter_cons, hks, ih (acc ++ [c]) h2, h3,
            List.take_succ_cons]
      | false =>
        have hks : keepSlot avail now c = false := by simp [keepSlot, hd, hA]
        have hcap : ¬ cap ≤ acc.length := by omega
        simp [suggestScan, hc, hA, hcap, List.filter_cons, hks, ih acc hacc]

/-- Starting from an empty accumulator the loop is exactly
"first `cap` keepable candidates". -/
theorem suggestScan_take (avail : Nat → Bool) (now cap : Nat) (hcap : 0 < cap)
    (cands : List Nat) :
    suggestScan avail now cap cands [] = (cands.filter (keepSlot avail now)).take cap := by
  have h := suggestScan_eq avail now cap cands [] (by simpa using hcap)
  simpa using h

/-- Every element of the hour-row concatenation comes from one of the hours. -/
theorem gridOverHours_mem (target : Nat) :
    ∀ (hs : List Nat) (t : Nat), t ∈ gridOverHours target hs →
      ∃ h, h ∈ hs ∧
        (t = target / 1440 * 1440 + h * 60 ∨ t = target / 1440 * 1440 + h * 60 + 30) := by
  intro hs
  induction hs with
  | nil => intro t ht; simp [gridOverHours] at ht
  | cons h hs ih =>
    intro t ht
    simp only [gridOverHours, slotRow, replaceHM, add_zero, List.mem_append, List.mem_cons,
      List.mem_singleton, List.not_mem_nil, or_false] at ht
    rcases ht with (h1 | h1) | h1
    · exact ⟨h, List.mem_cons_self h hs, Or.inl h1⟩
    · exact ⟨h, List.mem_cons_self h hs, Or.inr h1⟩
    · obtain ⟨h2, hh2, hor⟩ := ih t h1
      exact ⟨h2, List.mem_cons_of_mem h hh2, hor⟩

/-- The candidate grid over consecutive hours is strictly increasing. -/
theorem gridOverHours_pairwise (target : Nat) :
    ∀ (n s : Nat), (gridOverHours target (List.range' s n)).Pairwise (· < ·) := by
  intro n
  induction n with
  | zero => intro s; simp [List.range', gridOverHours]
  | succ n ih =>
    intro s
    have hr : List.range' s (n + 1) = s :: List.range' (s + 1) n := rfl
    rw [hr]
    show (slotRow target s ++ gridOverHours target (List.range' (s + 1) n)).Pairwise (· < ·)
    rw [List.pairwise_append]
    refine ⟨?_, ih (s + 1), ?_⟩
    · simp [slotRow, replaceHM, List.pairwise_cons]
    · intro a ha b hb
      obtain ⟨h2, hh2, hor⟩ := gridOverHours_mem target _ b hb
      rw [List.mem_range'_1] at hh2
      simp only [slotRow, replaceHM, List.mem_cons, List.mem_singleton,
        List.not_mem_nil, or_false] at ha
      rcases ha with rfl | rfl <;> rcases hor with rfl | rfl <;> omega

/-- The full candidate grid is strictly increasing. -/
theorem gridCandidates_pairwise (bho : Bool) (target : Nat) :
    (gridCandidates bho target).Pairwise (· < ·) := by
  cases bho <;> exact gridOverHours_pairwise target _ _

/-- Every grid candidate lies on the half-hour grid inside the hour range. -/
theorem gridCandidates_mem_onGrid (bho : Bool) (target t : Nat)
    (ht : t ∈ gridCandidates bho target) : onGrid bho target t := by
  cases bho
  · obtain ⟨h, hh, hor⟩ := gridOverHours_mem target (List.range' 8 (20 - 8)) t ht
    rw [List.mem_range'_1] at hh
    show target / 1440 * 1440 + 8 * 60 ≤ t ∧ t < target / 1440 * 1440 + 20 * 60 ∧
      (t - target / 1440 * 1440) % 30 = 0
    rcases hor with rfl | rfl <;> omega
  · obtain ⟨h, hh, hor⟩ := gridOverHours_mem target (List.range' 9 (17 - 9)) t ht
    rw [List.mem_range'_1] at hh
    show target / 1440 * 1440 + 9 * 60 ≤ t ∧ t < target / 1440 * 1440 + 17 * 60 ∧
      (t - target / 1440 * 1440) % 30 = 0
    rcases hor with rfl | rfl <;> omega

/-- The grid scan's output is sorted, capped, future-only, on-grid, and
pointwise available. -/
theorem suggestScan_props (f : Nat → Bool) (now target : Nat) (bho : Bool)
    (cap : Nat) (hcap : 0 < cap) :
    (suggestScan f now cap (gridCandidates bho target) []).Pairwise (· < ·) ∧
    (suggestScan f now cap (gridCandidates bho target) []).length ≤ cap ∧
    ∀ t ∈ suggestScan f now cap (gridCandidates bho target) [],
      now ≤ t ∧ onGrid bho target t ∧ f t = true := by
  rw [suggestScan_take f now cap hcap]
  refine ⟨?_, List.length_take_le _ _, ?_⟩
  · exact List.Pairwise.sublist ((List.take_sublist _ _).trans (List.filter_sublist _))
      (gridCandidates_pairwise bho target)
  · intro t ht
    have ht2 := List.mem_of_mem_take ht
    rw [List.mem_filter] at ht2
    obtain ⟨hmem, hkeep⟩ := ht2
    unfold keepSlot at hkeep
    rw [Bool.and_eq_true] at hkeep
    obtain ⟨h1, h2⟩ := hkeep
    have h3 : ¬ t < now := by simpa using h1
    exact ⟨by omega, gridCandidates_mem_onGrid bho target t hmem, h2⟩

/-- Looking up the key just written by `ctxSet`. -/
theorem ctxGet_ctxSet_self (c : Ctx) (k : String) (v : CtxVal) :
    ctxGet (ctxSet c k v) k = some v := by
  simp [ctxGet, ctxSet, List.find?_cons]

/-- Mock event ids are never the empty string. -/
theorem mock_event_id_ne_empty (n : Nat) : ("mock_event_" ++ toString n) ≠ "" := by
  intro h
  have h2 : ("mock_event_" ++ toString n).data = [] := by rw [h]
  rw [String.data_append] at h2
  have h3 := List.append_eq_nil.mp h2
  exact absurd h3.1 (by decide)

/-- Mock event ids are truthy. -/
theorem truthy_mock_event_id (n : Nat) :
    truthyStr (some ("mock_event_" ++ toString n)) = true := by
  simp only [truthyStr, Bool.not_eq_true']
  rw [beq_eq_false_iff_ne]
  exact mock_event_id_ne_empty n

/-- The booking handler on a busy slot: conflict message, context through,
state untouched (`create_event` is never reached). -/
theorem bookAction_conflict {σ : Type} (B : BackendIface σ) (p : Params)
    (aiCtx : Ctx) (st : σ) (t : Nat)
    (h1 : missingFields p = [])
    (h2 : parseDateTime (p.date.getD "") (p.time.getD "") = .ok t)
    (h3 : B.check_availability st t (p.duration.getD 60) = false) :
    bookAppointmentAction B p aiCtx st =
      (⟨"There\x27s a conflict at " ++ p.time.getD "" ++ " on " ++ p.date.getD "" ++
          ". Would you like me to suggest alternative times?", aiCtx⟩, st) := by
  simp only [bookAppointmentAction]
  rw [if_pos h1, h2]
  simp [h3]

/-- The booking handler on a free slot against the mock backend: one event
appended, success message, `last_booking` written. -/
theorem bookAction_success (now : Nat) (p : Params) (aiCtx : Ctx) (st : MockState) (t : Nat)
    (h1 : missingFields p = [])
    (h2 : parseDateTime (p.date.getD "") (p.time.getD "") = .ok t)
    (h3 : MockCalendarService.check_availability st t (p.duration.getD 60) = true) :
    bookAppointmentAction (mockIface now) p aiCtx st =
      (⟨"Perfect! I\x27ve booked \x27" ++ p.title.getD "" ++ "\x27 for " ++
          p.date.getD "" ++ " at " ++ p.time.getD "" ++ "." ++
          (if p.duration.getD 60 != 60 then
            " Duration: " ++ toString (p.duration.getD 60) ++ " minutes." else "") ++
          " Event ID: " ++ ("mock_event_" ++ toString st.next_event_id),
        ctxSet aiCtx "last_booking"
          (.bookingV (some ("mock_event_" ++ toString st.next_event_id)) (p.title.getD "")
            (p.date.getD "" ++ " " ++ p.time.getD ""))⟩,
       ⟨st.events ++ [⟨"mock_event_" ++ toString st.next_event_id, p.title.getD "", t,
          p.duration.getD 60, p.description.getD ""⟩],
        st.next_event_id + 1⟩) := by
  simp only [bookAppointmentAction, mockIface]
  rw [if_pos h1, h2]
  simp [h3, MockCalendarService.create_event, truthy_mock_event_id st.next_event_id]

/-- The availability handler when the date/time parse fails. -/
theorem checkAction_parse_error {σ : Type} (B : BackendIface σ) (p : Params)
    (aiCtx : Ctx) (st : σ) (e : String)
    (hd : truthyStr p.date = true)
    (he : (if truthyStr p.time then parseDateTime (p.date.getD "") (p.time.getD "")
           else parseDateMidnight (p.date.getD "")) = .error e) :
    checkAvailabilityAction B p aiCtx st =
      (⟨"I had trouble checking your calendar: " ++ e, aiCtx⟩, st) := by
  simp only [checkAvailabilityAction]
  rw [hd, he]
  simp

/-- The booking handler when the date/time parse fails. -/
theorem bookAction_parse_error {σ : Type} (B : BackendIface σ) (p : Params)
    (aiCtx : Ctx) (st : σ) (e : String)
    (h1 : missingFields p = [])
    (he : parseDateTime (p.date.getD "") (p.time.getD "") = .error e) :
    bookAppointmentAction B p aiCtx st =
      (⟨"I encountered an error while booking: " ++ e, aiCtx⟩, st) := by
  simp only [bookAppointmentAction]
  rw [if_pos h1, he]

/-- The suggestion handler when the date parse fails. -/
theorem suggestAction_parse_error {σ : Type} (B : BackendIface σ) (p : Params)
    (aiCtx : Ctx) (st : σ) (e : String)
    (hd : truthyStr p.date = true)
    (he : parseDateMidnight (p.date.getD "") = .error e) :
    suggestTimesAction B p aiCtx st =
      (⟨"I had trouble finding available times: " ++ e, aiCtx⟩, st) := by
  simp only [suggestTimesAction]
  rw [hd, he]
  simp

/-- `_execute_action` dispatch equation for `check_availability`. -/
theorem executeAction_check {σ : Type} (B : BackendIface σ) (o : AIResponse) (st : σ)
    (ha : o.action = some "check_availability") :
    executeAction B o st =
      (.handled (checkAvailabilityAction B (o.parameters.getD default) (o.context.getD []) st).1,
       (checkAvailabilityAction B (o.parameters.getD default) (o.context.getD []) st).2) := by
  unfold executeAction
  rw [ha]
  rfl

/-- Dispatch equation for `book_appointment`. -/
theorem executeAction_book {σ : Type} (B : BackendIface σ) (o : AIResponse) (st : σ)
    (ha : o.action = some "book_appointment") :
    executeAction B o st =
      (.handled (bookAppointmentAction B (o.parameters.getD default) (o.context.getD []) st).1,
       (bookAppointmentAction B (o.parameters.getD default) (o.context.getD []) st).2) := by
  unfold executeAction
  rw [ha]
  rfl

/-- Dispatch equation for `suggest_times`. -/
theorem executeAction_suggest {σ : Type} (B : BackendIface σ) (o : AIResponse) (st : σ)
    (ha : o.action = some "suggest_times") :
    executeAction B o st =
      (.handled (suggestTimesAction B (o.parameters.getD default) (o.context.getD []) st).1,
       (suggestTimesAction B (o.parameters.getD default) (o.context.getD []) st).2) := by
  unfold executeAction
  rw [ha]
  rfl

/-- `process_message` when the extractor object is well-keyed, the action
executes, and the handler yields a result dict: the returned object is the
extractor's with `message`/`context` replaced by the handler's. -/
theorem process_message_handled {σ : Type} (B : BackendIface σ) (o : AIResponse)
    (context : Ctx) (st st2 : σ) (r : AgentResult) (m : String)
    (hm : o.message = some m)
    (htr : truthyStr o.action = true)
    (hgc : (o.action == some "general_chat") = false)
    (hex : executeAction B o st = (.handled r, st2)) :
    process_message B (.parsed o) context st =
      ({ o with message := some r.message, context := some r.context }, st2) := by
  unfold process_message processCore getAiResponse
  simp [htr, hgc, hex, hm]

/-! ## Claim theorems -/

/-- C1: for every service state, clock, target date, duration and
businessHoursOnly flag, `GoogleCalendarService.suggest_times` returns
start-times in strictly ascending order, at most 10 of them, each on the
30-minute grid within `[9,17)` (businessHoursOnly) or `[8,20)` of the target
date, none strictly before the current time, and each reported available by
`check_availability` for the requested duration. -/
theorem suggest_times_sorted_grid_capped_available
    (svc : ServiceKind) (now target duration : Nat) (bho : Bool) :
    (GoogleCalendarService.suggest_times svc now target duration bho).Pairwise (· < ·) ∧
    (GoogleCalendarService.suggest_times svc now target duration bho).length ≤ 10 ∧
    ∀ t ∈ GoogleCalendarService.suggest_times svc now target duration bho,
      now ≤ t ∧ onGrid bho target t ∧
        GoogleCalendarService.check_availability svc t duration = true := by
  cases svc with
  | live avail =>
    have h := suggestScan_props
      (fun c => GoogleCalendarService.check_availability (.live avail) c duration)
      now target bho 10 (by omega)
    exact ⟨h.1, h.2.1, h.2.2⟩
  | mock st =>
    have h := suggestScan_props
      (fun c => MockCalendarService.check_availability st c duration)
      now target bho 5 (by omega)
    exact ⟨h.1, le_trans h.2.1 (by omega), h.2.2⟩

/-- C4: `MockCalendarService.check_availability st s d` is false exactly when
the start hour is 14 or some stored event's interval overlaps `[s, s+d)`
under the half-open test `aStart < bEnd ∧ bStart < aEnd`; in particular a
slot separated from every event at the boundary (back-to-back) is available
when the hour rule does not fire. -/
theorem check_availability_halfopen_overlap (st : MockState) (s d : Nat) :
    (MockCalendarService.check_availability st s d = false ↔
      hourOf s = 14 ∨ ∃ e ∈ st.events, s < e.start_time + e.duration ∧ e.start_time < s + d) ∧
    (hourOf s ≠ 14 →
      (∀ e ∈ st.events, s + d ≤ e.start_time ∨ e.start_time + e.duration ≤ s) →
      MockCalendarService.check_availability st s d = true) := by
  have hiff : MockCalendarService.check_availability st s d = false ↔
      hourOf s = 14 ∨ ∃ e ∈ st.events, s < e.start_time + e.duration ∧ e.start_time < s + d := by
    unfold MockCalendarService.check_availability
    by_cases h : hourOf s = 14
    · simp [h]
    · have hb : (hourOf s == 14) = false := by simpa using h
      simp only [hb, Bool.false_eq_true, if_false, h, false_or]
      constructor
      · intro hall
        by_contra hno
        push_neg at hno
        rw [← Bool.not_eq_true, List.all_eq_true] at hall
        apply hall
        intro e he
        have := hno e he
        simp only [Bool.not_eq_true', Bool.and_eq_false_iff, decide_eq_false_iff_not, not_lt]
        omega
      · rintro ⟨e, he, h1, h2⟩
        rw [← Bool.not_eq_true, List.all_eq_true]
        intro hall
        have := hall e he
        simp only [Bool.not_eq_true', Bool.and_eq_false_iff, decide_eq_false_iff_not,
          not_lt] at this
        omega
  refine ⟨hiff, fun h14 hsep => ?_⟩
  rcases Bool.eq_false_or_eq_true (MockCalendarService.check_availability st s d) with ht | hf
  · exact ht
  · rcases hiff.mp hf with h | ⟨e, he, h1, h2⟩
    · exact absurd h h14
    · rcases hsep e he with h3 | h3 <;> omega

/-- C4 witness: a slot starting exactly where a stored event ends does not
conflict. -/
theorem check_availability_boundary_witness :
    MockCalendarService.check_availability ⟨[⟨"mock_event_1", "T", 600, 60, ""⟩], 2⟩ 660 30 =
      true :=
  (check_availability_halfopen_overlap ⟨[⟨"mock_event_1", "T", 600, 60, ""⟩], 2⟩ 660 30).2
    (by decide) (by decide)

/-- C9 counterexample: with identical availability answers (an empty mock
event store on both sides), on a fully free day the live implementation and
the in-memory fake return different sequences — 10 slots versus 5 — so they
do not satisfy identical postconditions. -/
theorem live_mock_suggest_disagree :
    MockCalendarService.suggest_times ⟨[], 1⟩ 0 0 60 true ≠
      GoogleCalendarService.suggestTimesLive
        (fun t d => MockCalendarService.check_availability ⟨[], 1⟩ t d) 0 0 60 true := by
  decide

/-- C9 (amended): both implementations scan the same grid in the same order
with the same filters, but the live one caps at 10 while the fake caps at 5:
given the same availability answers the fake's output is exactly the first 5
entries of the live one's, so they agree only up to that prefix. -/
theorem mock_suggest_is_take5_of_live
    (avail : Nat → Nat → Bool) (st : MockState) (now target duration : Nat) (bho : Bool)
    (h : ∀ t, avail t duration = MockCalendarService.check_availability st t duration) :
    MockCalendarService.suggest_times st now target duration bho =
      (GoogleCalendarService.suggestTimesLive avail now target duration bho).take 5 ∧
    (GoogleCalendarService.suggestTimesLive avail now target duration bho).length ≤ 10 := by
  have hf : (fun c => GoogleCalendarService.check_availability (.live avail) c duration) =
      (fun c => MockCalendarService.check_availability st c duration) := by
    funext c
    exact h c
  constructor
  · unfold MockCalendarService.suggest_times GoogleCalendarService.suggestTimesLive
    rw [hf, suggestScan_take _ now 5 (by omega), suggestScan_take _ now 10 (by omega),
      List.take_take]
    norm_num
  · unfold GoogleCalendarService.suggestTimesLive
    rw [suggestScan_take _ now 10 (by omega)]
    exact List.length_take_le _ _

/-- C9 witness: the prefix relation instantiated on a concrete free day. -/
theorem mock_suggest_is_take5_of_live_witness :
    MockCalendarService.suggest_times ⟨[], 1⟩ 0 0 60 true =
      (GoogleCalendarService.suggestTimesLive
        (fun t d => MockCalendarService.check_availability ⟨[], 1⟩ t d) 0 0 60 true).take 5 ∧
    (GoogleCalendarService.suggestTimesLive
        (fun t d => MockCalendarService.check_availability ⟨[], 1⟩ t d) 0 0 60 true).length ≤
      10 :=
  mock_suggest_is_take5_of_live _ ⟨[], 1⟩ 0 0 60 true (fun _ => rfl)

/-- C3: whenever the booking request is complete but the availability
re-check reports the slot busy (any backend, any state), the handler returns
the conflict message offering alternatives, never calls `create_event`, and
returns the backend state unchanged. -/
theorem book_busy_slot_refused {σ : Type} (B : BackendIface σ) (p : Params)
    (aiCtx : Ctx) (st : σ) (t : Nat)
    (h1 : missingFields p = [])
    (h2 : parseDateTime (p.date.getD "") (p.time.getD "") = .ok t)
    (h3 : B.check_availability st t (p.duration.getD 60) = false) :
    bookAppointmentAction B p aiCtx st =
      (⟨"There\x27s a conflict at " ++ p.time.getD "" ++ " on " ++ p.date.getD "" ++
          ". Would you like me to suggest alternative times?", aiCtx⟩, st) :=
  bookAction_conflict B p aiCtx st t h1 h2 h3

/-- C3 witness: the spec's concrete scenario — date 2025-03-10, time 14:00,
title Sync, default duration, fresh in-memory fake (hour 14 is always busy):
conflict message, no event created. -/
theorem book_busy_slot_refused_witness :
    bookAppointmentAction (mockIface 0)
        ⟨some "2025-03-10", some "14:00", none, some "Sync", none⟩ [] (⟨[], 1⟩ : MockState) =
      (⟨"There\x27s a conflict at 14:00 on 2025-03-10. Would you like me to suggest alternative times?",
        []⟩, (⟨[], 1⟩ : MockState)) :=
  book_busy_slot_refused (mockIface 0)
    ⟨some "2025-03-10", some "14:00", none, some "Sync", none⟩ [] ⟨[], 1⟩ 1064620200
    (by decide) rfl (by decide)

/-- C6: whenever one of date, time, title is absent or empty, the booking
handler touches no backend (the state passes through for an arbitrary
backend), returns the message naming exactly the missing fields, and stashes
the partial parameters under `pending_booking`. -/
theorem book_missing_fields_pending {σ : Type} (B : BackendIface σ) (p : Params)
    (aiCtx : Ctx) (st : σ) (h : missingFields p ≠ []) :
    bookAppointmentAction B p aiCtx st =
      (⟨"I need more information to book the appointment. Please provide: " ++
          String.intercalate ", " (missingFields p),
        ctxSet aiCtx "pending_booking" (.paramsV p)⟩, st) := by
  simp only [bookAppointmentAction]
  rw [if_neg h]

/-- C6 witness: a request missing only the title. -/
theorem book_missing_fields_pending_witness :
    bookAppointmentAction (mockIface 0)
        ⟨some "2025-03-11", some "10:00", none, none, none⟩ [] (⟨[], 1⟩ : MockState) =
      (⟨"I need more information to book the appointment. Please provide: title",
        [("pending_booking",
          CtxVal.paramsV ⟨some "2025-03-11", some "10:00", none, none, none⟩)]⟩,
       (⟨[], 1⟩ : MockState)) :=
  book_missing_fields_pending (mockIface 0)
    ⟨some "2025-03-11", some "10:00", none, none, none⟩ [] ⟨[], 1⟩ (by decide)

/-- C2 counterexample: with duration 0 the claim fails — the first booking
succeeds, yet the identical repeated request is not refused (an empty
interval overlaps nothing under the half-open test), and a second event is
created. -/
theorem book_twice_duration_zero_double_books :
    ((bookAppointmentAction (mockIface 0)
        ⟨some "2025-03-11", some "10:00", some 0, some "Sync", none⟩ []
        (bookAppointmentAction (mockIface 0)
          ⟨some "2025-03-11", some "10:00", some 0, some "Sync", none⟩ []
          (⟨[], 1⟩ : MockState)).2).2).events.length = 2 := by
  decide

/-- C2 (amended): for every complete booking request with positive duration
whose slot the mock reports free, the handler appends exactly one event, the
returned message carries the non-empty event id, `last_booking` records the
booking, and the identical request issued against the resulting state is
refused with the conflict message and leaves the store unchanged. -/
theorem book_free_slot_then_rebook_refused (now : Nat) (p : Params)
    (aiCtx aiCtx2 : Ctx) (st : MockState) (t : Nat)
    (h1 : missingFields p = [])
    (h2 : parseDateTime (p.date.getD "") (p.time.getD "") = .ok t)
    (h3 : MockCalendarService.check_availability st t (p.duration.getD 60) = true)
    (h4 : 0 < p.duration.getD 60) :
    (bookAppointmentAction (mockIface now) p aiCtx st).2.events =
      st.events ++ [⟨"mock_event_" ++ toString st.next_event_id, p.title.getD "", t,
        p.duration.getD 60, p.description.getD ""⟩] ∧
    ("mock_event_" ++ toString st.next_event_id) ≠ "" ∧
    (∃ a b, (bookAppointmentAction (mockIface now) p aiCtx st).1.message =
      a ++ ("mock_event_" ++ toString st.next_event_id) ++ b) ∧
    ctxGet (bookAppointmentAction (mockIface now) p aiCtx st).1.context "last_booking" =
      some (.bookingV (some ("mock_event_" ++ toString st.next_event_id)) (p.title.getD "")
        (p.date.getD "" ++ " " ++ p.time.getD "")) ∧
    (bookAppointmentAction (mockIface now) p aiCtx2
        (bookAppointmentAction (mockIface now) p aiCtx st).2).1.message =
      "There\x27s a conflict at " ++ p.time.getD "" ++ " on " ++ p.date.getD "" ++
        ". Would you like me to suggest alternative times?" ∧
    (bookAppointmentAction (mockIface now) p aiCtx2
        (bookAppointmentAction (mockIface now) p aiCtx st).2).2 =
      (bookAppointmentAction (mockIface now) p aiCtx st).2 := by
  have hfirst := bookAction_success now p aiCtx st t h1 h2 h3
  have hbusy : MockCalendarService.check_availability
      ⟨st.events ++ [⟨"mock_event_" ++ toString st.next_event_id, p.title.getD "", t,
        p.duration.getD 60, p.description.getD ""⟩], st.next_event_id + 1⟩ t
      (p.duration.getD 60) = false := by
    unfold MockCalendarService.check_availability
    cases h14 : (hourOf t == 14)
    · simp only [h14, Bool.false_eq_true, if_false, List.all_append, List.all_cons,
        List.all_nil, Bool.and_true]
      have hone : (!(decide (t < t + p.duration.getD 60) &&
          decide (t + p.duration.getD 60 > t))) = false := by
        simp only [Bool.not_eq_false', Bool.and_eq_true, decide_eq_true_eq, gt_iff_lt]
        constructor <;> omega
      rw [hone, Bool.and_false]
    · simp [h14]
  have hb2 : (mockIface now).check_availability
      (⟨st.events ++ [⟨"mock_event_" ++ toString st.next_event_id, p.title.getD "", t,
        p.duration.getD 60, p.description.getD ""⟩], st.next_event_id + 1⟩ : MockState) t
      (p.duration.getD 60) = false := hbusy
  have hsecond := bookAction_conflict (mockIface now) p aiCtx2
    (⟨st.events ++ [⟨"mock_event_" ++ toString st.next_event_id, p.title.getD "", t,
        p.duration.getD 60, p.description.getD ""⟩], st.next_event_id + 1⟩ : MockState)
    t h1 h2 hb2
  have hst2 : (bookAppointmentAction (mockIface now) p aiCtx st).2 =
      (⟨st.events ++ [⟨"mock_event_" ++ toString st.next_event_id, p.title.getD "", t,
        p.duration.getD 60, p.description.getD ""⟩], st.next_event_id + 1⟩ : MockState) := by
    rw [hfirst]
  have hmsg1 : (bookAppointmentAction (mockIface now) p aiCtx st).1.message =
      "Perfect! I\x27ve booked \x27" ++ p.title.getD "" ++ "\x27 for " ++
        p.date.getD "" ++ " at " ++ p.time.getD "" ++ "." ++
        (if p.duration.getD 60 != 60 then
          " Duration: " ++ toString (p.duration.getD 60) ++ " minutes." else "") ++
        " Event ID: " ++ ("mock_event_" ++ toString st.next_event_id) := by
    rw [hfirst]
  have hctx1 : (bookAppointmentAction (mockIface now) p aiCtx st).1.context =
      ctxSet aiCtx "last_booking"
        (.bookingV (some ("mock_event_" ++ toString st.next_event_id)) (p.title.getD "")
          (p.date.getD "" ++ " " ++ p.time.getD "")) := by
    rw [hfirst]
  refine ⟨by rw [hst2], mock_event_id_ne_empty st.next_event_id, ?_, ?_, ?_, ?_⟩
  · refine ⟨"Perfect! I\x27ve booked \x27" ++ p.title.getD "" ++ "\x27 for " ++
      p.date.getD "" ++ " at " ++ p.time.getD "" ++ "." ++
      (if p.duration.getD 60 != 60 then
        " Duration: " ++ toString (p.duration.getD 60) ++ " minutes." else "") ++
      " Event ID: ", "", ?_⟩
    rw [hmsg1, String.append_empty]
  · rw [hctx1]
    exact ctxGet_ctxSet_self aiCtx "last_booking" _
  · rw [hst2, hsecond]
  · rw [hst2, hsecond]

/-- C2 witness: a concrete free-slot booking and its immediate repetition. -/
theorem book_free_slot_then_rebook_refused_witness :
    (bookAppointmentAction (mockIface 0)
        ⟨some "2025-03-11", some "10:00", none, some "Sync", none⟩ []
        (⟨[], 1⟩ : MockState)).2.events =
      [⟨"mock_event_1", "Sync", 1064621400, 60, ""⟩] ∧
    ("mock_event_1" : String) ≠ "" ∧
    (∃ a b, (bookAppointmentAction (mockIface 0)
        ⟨some "2025-03-11", some "10:00", none, some "Sync", none⟩ []
        (⟨[], 1⟩ : MockState)).1.message = a ++ "mock_event_1" ++ b) ∧
    ctxGet (bookAppointmentAction (mockIface 0)
        ⟨some "2025-03-11", some "10:00", none, some "Sync", none⟩ []
        (⟨[], 1⟩ : MockState)).1.context "last_booking" =
      some (.bookingV (some "mock_event_1") "Sync" "2025-03-11 10:00") ∧
    (bookAppointmentAction (mockIface 0)
        ⟨some "2025-03-11", some "10:00", none, some "Sync", none⟩ []
        (bookAppointmentAction (mockIface 0)
          ⟨some "2025-03-11", some "10:00", none, some "Sync", none⟩ []
          (⟨[], 1⟩ : MockState)).2).1.message =
      "There\x27s a conflict at 10:00 on 2025-03-11. Would you like me to suggest alternative times?" ∧
    (bookAppointmentAction (mockIface 0)
        ⟨some "2025-03-11", some "10:00", none, some "Sync", none⟩ []
        (bookAppointmentAction (mockIface 0)
          ⟨some "2025-03-11", some "10:00", none, some "Sync", none⟩ []
          (⟨[], 1⟩ : MockState)).2).2 =
      (bookAppointmentAction (mockIface 0)
        ⟨some "2025-03-11", some "10:00", none, some "Sync", none⟩ []
        (⟨[], 1⟩ : MockState)).2 :=
  book_free_slot_then_rebook_refused 0
    ⟨some "2025-03-11", some "10:00", none, some "Sync", none⟩ [] [] ⟨[], 1⟩ 1064621400
    (by decide) rfl (by decide) (by decide)

/-- C8: an extractor output that `json.loads` rejects degrades to a
general-chat response carrying the literal raw text and the prior context,
with nothing raised and the backend untouched. -/
theorem decode_error_general_chat_fallback {σ : Type} (B : BackendIface σ) (raw : String)
    (context : Ctx) (st : σ) :
    process_message B (.decodeError raw) context st =
      (⟨some raw, some "general_chat", none, some context⟩, st) := rfl

/-- C8 counterexample: a schema-mismatched but valid JSON object (the empty
object) is NOT mapped to the general-chat fallback — it passes through with
no action at all, so the claim's "not parseable as the expected JSON schema"
scope is wrong. -/
theorem schema_mismatch_not_general_chat :
    (process_message (mockIface 0) (.parsed ⟨none, none, none, none⟩) []
        (⟨[], 1⟩ : MockState)).1.action ≠ some "general_chat" := by
  decide

/-- C5 (amended): `process_message` never propagates an exception; whenever
the extractor raises, or fails JSON decoding, or returns a parsed object
that itself carries a message and a context, the returned value contains a
message string and a context mapping. -/
theorem process_message_wellformed {σ : Type} (B : BackendIface σ)
    (ext : ExtractorOutcome) (context : Ctx) (st : σ)
    (h : ∀ o, ext = .parsed o → o.message.isSome ∧ o.context.isSome) :
    (process_message B ext context st).1.message.isSome ∧
    (process_message B ext context st).1.context.isSome := by
  cases ext with
  | raised e => exact ⟨rfl, rfl⟩
  | decodeError raw => exact ⟨rfl, rfl⟩
  | parsed o =>
    obtain ⟨hm, hc⟩ := h o rfl
    obtain ⟨m, hm2⟩ := Option.isSome_iff_exists.mp hm
    obtain ⟨c, hc2⟩ := Option.isSome_iff_exists.mp hc
    unfold process_message processCore getAiResponse
    cases hcond : (truthyStr o.action && !(o.action == some "general_chat"))
    · simp [hcond, hm2, hc2]
    · rcases hEA : executeAction B o st with ⟨er, st2⟩
      simp only [hcond, if_true, hEA, hm2]
      cases er <;> simp

/-- C5 witness: a raising extractor still yields a well-formed turn value. -/
theorem process_message_wellformed_witness :
    (process_message (mockIface 0) (.raised "boom") [] (⟨[], 1⟩ : MockState)).1.message.isSome ∧
    (process_message (mockIface 0) (.raised "boom") [] (⟨[], 1⟩ : MockState)).1.context.isSome :=
  process_message_wellformed (mockIface 0) (.raised "boom") [] ⟨[], 1⟩
    (fun _ ho => ExtractorOutcome.noConfusion ho)

/-- C5 counterexample: a parsed extractor object with action `general_chat`
and no `message` key is returned as-is, so the turn value lacks a message
string — the unconditional claim fails. -/
theorem process_message_missing_message :
    (process_message (mockIface 0) (.parsed ⟨none, some "general_chat", none, none⟩) []
        (⟨[], 1⟩ : MockState)).1.message = none := rfl

/-- `process_message` when the action executes but the extractor object has
no `message` key: line 59's eager default lookup `ai_response['message']`
raises `KeyError('message')`, so the turn returns the generic error dict
with the caller's input context and the post-handler backend state. -/
theorem process_message_keyerror {σ : Type} (B : BackendIface σ) (o : AIResponse)
    (context : Ctx) (st st2 : σ) (er : ExecOut)
    (hm : o.message = none)
    (htr : truthyStr o.action = true)
    (hgc : (o.action == some "general_chat") = false)
    (hex : executeAction B o st = (er, st2)) :
    process_message B (.parsed o) context st =
      (⟨some ("I encountered an error: " ++ "\x27message\x27" ++ ". Please try again."),
        some "error", none, some context⟩, st2) := by
  unfold process_message processCore getAiResponse
  simp [htr, hgc, hex, hm]

/-- C7 (amended): when the action's date/time parse fails (the only raise
reachable inside the three handlers, both backends catching their own
transport errors), no event is created (the backend state passes through),
and: if the extractor's response carries a message string, the turn returns
the handler's apology message and the context carried in the extractor's
response (empty when that key is absent) — not necessarily the context
passed into the turn; if the extractor's response lacks the message key, the
eager default lookup on line 59 raises `KeyError` instead and the turn
returns the generic error dict, whose context is the caller's input
context. -/
theorem turn_parse_failure_extractor_ctx {σ : Type} (B : BackendIface σ) (o : AIResponse)
    (context : Ctx) (st : σ) (a e : String)
    (ha : o.action = some a)
    (haz : a = "check_availability" ∨ a = "book_appointment" ∨ a = "suggest_times")
    (hreq : requiredPresent a (o.parameters.getD default))
    (hparse : handlerParse a (o.parameters.getD default) = .error e) :
    (∀ m, o.message = some m →
      process_message B (.parsed o) context st =
        ({ o with message := some (apologyFor a e), context := some (o.context.getD []) },
         st)) ∧
    (o.message = none →
      process_message B (.parsed o) context st =
        (⟨some ("I encountered an error: " ++ "\x27message\x27" ++ ". Please try again."),
          some "error", none, some context⟩, st)) := by
  have htr' : truthyStr o.action = true := by
    rcases haz with rfl | rfl | rfl <;> rw [ha] <;> rfl
  have hgc' : (o.action == some "general_chat") = false := by
    rcases haz with rfl | rfl | rfl <;> rw [ha] <;> rfl
  have hex : executeAction B o st =
      (.handled ⟨apologyFor a e, o.context.getD []⟩, st) := by
    rcases haz with rfl | rfl | rfl
    · have hreq' : truthyStr (o.parameters.getD default).date = true := hreq
      have hparse' : (if truthyStr (o.parameters.getD default).time then
          parseDateTime ((o.parameters.getD default).date.getD "")
            ((o.parameters.getD default).time.getD "")
        else parseDateMidnight ((o.parameters.getD default).date.getD "")) = .error e := hparse
      have hh := checkAction_parse_error B (o.parameters.getD default) (o.context.getD []) st e
        hreq' hparse'
      have hex0 := executeAction_check B o st ha
      simp only [hh] at hex0
      exact hex0
    · have hreq' : missingFields (o.parameters.getD default) = [] := hreq
      have hparse' : parseDateTime ((o.parameters.getD default).date.getD "")
          ((o.parameters.getD default).time.getD "") = .error e := hparse
      have hh := bookAction_parse_error B (o.parameters.getD default) (o.context.getD []) st e
        hreq' hparse'
      have hex0 := executeAction_book B o st ha
      simp only [hh] at hex0
      exact hex0
    · have hreq' : truthyStr (o.parameters.getD default).date = true := hreq
      have hparse' : parseDateMidnight ((o.parameters.getD default).date.getD "") =
        .error e := hparse
      have hh := suggestAction_parse_error B (o.parameters.getD default) (o.context.getD []) st e
        hreq' hparse'
      have hex0 := executeAction_suggest B o st ha
      simp only [hh] at hex0
      exact hex0
  constructor
  · intro m hm
    exact process_message_handled B o context st st
      ⟨apologyFor a e, o.context.getD []⟩ m hm htr' hgc' hex
  · intro hm
    exact process_message_keyerror B o context st st _ hm htr' hgc' hex

/-- C7 witness: a suggest-times request with an unparseable date, once with
the extractor message present (apology, extractor context) and once with it
absent (KeyError error dict, input context). -/
theorem turn_parse_failure_extractor_ctx_witness :
    (process_message (mockIface 0)
        (.parsed ⟨some "m", some "suggest_times",
          some ⟨some "nope", none, none, none, none⟩, some [("k", CtxVal.raw "v")]⟩)
        [] (⟨[], 1⟩ : MockState) =
      (⟨some "I had trouble finding available times: time data \x27nope\x27 does not match format \x27%Y-%m-%d\x27",
        some "suggest_times", some ⟨some "nope", none, none, none, none⟩,
        some [("k", CtxVal.raw "v")]⟩, (⟨[], 1⟩ : MockState))) ∧
    (process_message (mockIface 0)
        (.parsed ⟨none, some "suggest_times",
          some ⟨some "nope", none, none, none, none⟩, some [("k", CtxVal.raw "v")]⟩)
        [] (⟨[], 1⟩ : MockState) =
      (⟨some "I encountered an error: \x27message\x27. Please try again.",
        some "error", none, some []⟩, (⟨[], 1⟩ : MockState))) :=
  ⟨(turn_parse_failure_extractor_ctx (mockIface 0)
      ⟨some "m", some "suggest_times", some ⟨some "nope", none, none, none, none⟩,
        some [("k", CtxVal.raw "v")]⟩
      [] ⟨[], 1⟩ "suggest_times"
      "time data \x27nope\x27 does not match format \x27%Y-%m-%d\x27"
      rfl (Or.inr (Or.inr rfl)) rfl rfl).1 "m" rfl,
   (turn_parse_failure_extractor_ctx (mockIface 0)
      ⟨none, some "suggest_times", some ⟨some "nope", none, none, none, none⟩,
        some [("k", CtxVal.raw "v")]⟩
      [] ⟨[], 1⟩ "suggest_times"
      "time data \x27nope\x27 does not match format \x27%Y-%m-%d\x27"
      rfl (Or.inr (Or.inr rfl)) rfl rfl).2 rfl⟩

/-- C7 counterexample: on a parse failure the returned context is the
extractor's response context, which differs from the (empty) context passed
into the turn — the claim's pass-through of the turn-input context fails. -/
theorem turn_parse_failure_ctx_not_input :
    (process_message (mockIface 0)
        (.parsed ⟨some "m", some "suggest_times",
          some ⟨some "nope", none, none, none, none⟩,
          some [("user_intent", CtxVal.raw "x")]⟩)
        [] (⟨[], 1⟩ : MockState)).1.context ≠ some ([] : Ctx) := by
  decide

/-- C10: whenever the turn body raises (for example the extractor call
itself), `process_message` returns the apologetic error dict: action is the
string "error" — outside the four documented actions — the message embeds
the exception text, and the context is exactly the caller-supplied input
context. -/
theorem turn_exception_error_response {σ : Type} (B : BackendIface σ)
    (ext : ExtractorOutcome) (context : Ctx) (st st2 : σ) (e : String)
    (h : processCore B ext context st = .error (e, st2)) :
    process_message B ext context st =
      (⟨some ("I encountered an error: " ++ e ++ ". Please try again."), some "error",
        none, some context⟩, st2) ∧
    "error" ∉ (["check_availability", "book_appointment", "suggest_times",
      "general_chat"] : List String) ∧
    ∃ a b, ("I encountered an error: " ++ e ++ ". Please try again.") = a ++ e ++ b := by
  refine ⟨?_, by decide, ⟨"I encountered an error: ", ". Please try again.", rfl⟩⟩
  unfold process_message
  rw [h]

/-- C10 witness: a raising extractor produces the error dict verbatim. -/
theorem turn_exception_error_response_witness :
    process_message (mockIface 0) (.raised "boom") [] (⟨[], 1⟩ : MockState) =
      (⟨some "I encountered an error: boom. Please try again.", some "error",
        none, some []⟩, (⟨[], 1⟩ : MockState)) ∧
    "error" ∉ (["check_availability", "book_appointment", "suggest_times",
      "general_chat"] : List String) ∧
    ∃ a b, ("I encountered an error: boom. Please try again.") = a ++ "boom" ++ b :=
  turn_exception_error_response (mockIface 0) (.raised "boom") [] ⟨[], 1⟩ ⟨[], 1⟩ "boom" rfl
